import Mathlib

/-!
Verification of the geometric / encoding core of the `rbx_types` crate
(`basic_types.rs`, `faces.rs`).

Floating-point (`f32`) values are modelled as exact rationals (`ℚ`); every
concrete input appearing in a theorem below is a dyadic rational on which the
`f32` operations performed by the code are exact, so the rational computation
agrees bit-for-bit with the `f32` one.  Operations supplied by external
libraries (the `f32::sqrt` intrinsic, nalgebra's quaternion slerp and its
`Rotation3::from_matrix` rotation extraction) are modelled as explicit
function parameters or idealized definitions, as documented at each use.
-/

namespace Rbx

/-- Machine epsilon of 32-bit floats, `f32::EPSILON`, as an exact
rational: `2⁻²³`. -/
def epsQ : ℚ := 1 / 2 ^ 23

/-- Absolute value, `f32::abs`, exact on rationals. -/
def ratAbs (q : ℚ) : ℚ := if q < 0 then -q else q

/-- Rust `f32::round`: round to nearest integer, ties away from zero. -/
def rustRound (q : ℚ) : ℤ := if q < 0 then -⌊-q + 1 / 2⌋ else ⌊q + 1 / 2⌋

/-- Source `Vector3` from `basic_types.rs`: three `f32` components. -/
structure Vector3 where
  x : ℚ
  y : ℚ
  z : ℚ
  deriving DecidableEq

/-- Source `approx_unit_or_zero` from `basic_types.rs`:
`if value.abs() <= EPSILON { Some(0) }
 else if value.abs() - 1.0 <= EPSILON { Some(1.0f32.copysign(value) as i32) }
 else { None }`.
`copysign(1, value)` is `-1` for negative `value` and `1` otherwise; the
branch is only reached when `|value| > EPSILON`, so `value ≠ 0` there. -/
def approxUnitOrZero (value : ℚ) : Option ℤ :=
  if ratAbs value ≤ epsQ then
    some 0
  else if ratAbs value - 1 ≤ epsQ then
    some (if value < 0 then -1 else 1)
  else
    none

/-- Helper `get_normal_id` closed over by `Vector3::to_normal_id`. -/
def getNormalId (position : ℕ) (value : ℤ) : Option ℕ :=
  match value with
  | 1 => some position
  | -1 => some (position + 3)
  | _ => none

/-- Source `Vector3::to_normal_id` from `basic_types.rs`. -/
def Vector3.toNormalId (v : Vector3) : Option ℕ :=
  match approxUnitOrZero v.x, approxUnitOrZero v.y, approxUnitOrZero v.z with
  | some x, some 0, some 0 => getNormalId 0 x
  | some 0, some y, some 0 => getNormalId 1 y
  | some 0, some 0, some z => getNormalId 2 z
  | _, _, _ => none

/-- Source `Matrix3` from `basic_types.rs`: row-major, each `Vector3` is a row. -/
structure Matrix3 where
  x : Vector3
  y : Vector3
  z : Vector3
  deriving DecidableEq

/-- Source `Matrix3::identity`. -/
def Matrix3.identity : Matrix3 :=
  ⟨⟨1, 0, 0⟩, ⟨0, 1, 0⟩, ⟨0, 0, 1⟩⟩

/-- Source `Matrix3::transpose`. -/
def Matrix3.transpose (m : Matrix3) : Matrix3 :=
  ⟨⟨m.x.x, m.y.x, m.z.x⟩, ⟨m.x.y, m.y.y, m.z.y⟩, ⟨m.x.z, m.y.z, m.z.z⟩⟩

/-- Source `Matrix3::from_basic_rotation_id`: the 24-entry lookup table.  The error
payload is the offending id, modelling `Matrix3Error::BadRotationId { id }`. -/
def Matrix3.fromBasicRotationId (id : ℕ) : Except ℕ Matrix3 :=
  match id with
  | 0x02 => .ok Matrix3.identity
  | 0x03 => .ok ⟨⟨1, 0, 0⟩, ⟨0, 0, -1⟩, ⟨0, 1, 0⟩⟩
  | 0x05 => .ok ⟨⟨1, 0, 0⟩, ⟨0, -1, 0⟩, ⟨0, 0, -1⟩⟩
  | 0x06 => .ok ⟨⟨1, 0, 0⟩, ⟨0, 0, 1⟩, ⟨0, -1, 0⟩⟩
  | 0x07 => .ok ⟨⟨0, 1, 0⟩, ⟨1, 0, 0⟩, ⟨0, 0, -1⟩⟩
  | 0x09 => .ok ⟨⟨0, 0, 1⟩, ⟨1, 0, 0⟩, ⟨0, 1, 0⟩⟩
  | 0x0a => .ok ⟨⟨0, -1, 0⟩, ⟨1, 0, 0⟩, ⟨0, 0, 1⟩⟩
  | 0x0c => .ok ⟨⟨0, 0, -1⟩, ⟨1, 0, 0⟩, ⟨0, -1, 0⟩⟩
  | 0x0d => .ok ⟨⟨0, 1, 0⟩, ⟨0, 0, 1⟩, ⟨1, 0, 0⟩⟩
  | 0x0e => .ok ⟨⟨0, 0, -1⟩, ⟨0, 1, 0⟩, ⟨1, 0, 0⟩⟩
  | 0x10 => .ok ⟨⟨0, -1, 0⟩, ⟨0, 0, -1⟩, ⟨1, 0, 0⟩⟩
  | 0x11 => .ok ⟨⟨0, 0, 1⟩, ⟨0, -1, 0⟩, ⟨1, 0, 0⟩⟩
  | 0x14 => .ok ⟨⟨-1, 0, 0⟩, ⟨0, 1, 0⟩, ⟨0, 0, -1⟩⟩
  | 0x15 => .ok ⟨⟨-1, 0, 0⟩, ⟨0, 0, 1⟩, ⟨0, 1, 0⟩⟩
  | 0x17 => .ok ⟨⟨-1, 0, 0⟩, ⟨0, -1, 0⟩, ⟨0, 0, 1⟩⟩
  | 0x18 => .ok ⟨⟨-1, 0, 0⟩, ⟨0, 0, -1⟩, ⟨0, -1, 0⟩⟩
  | 0x19 => .ok ⟨⟨0, 1, 0⟩, ⟨-1, 0, 0⟩, ⟨0, 0, 1⟩⟩
  | 0x1b => .ok ⟨⟨0, 0, -1⟩, ⟨-1, 0, 0⟩, ⟨0, 1, 0⟩⟩
  | 0x1c => .ok ⟨⟨0, -1, 0⟩, ⟨-1, 0, 0⟩, ⟨0, 0, -1⟩⟩
  | 0x1e => .ok ⟨⟨0, 0, 1⟩, ⟨-1, 0, 0⟩, ⟨0, -1, 0⟩⟩
  | 0x1f => .ok ⟨⟨0, 1, 0⟩, ⟨0, 0, -1⟩, ⟨-1, 0, 0⟩⟩
  | 0x20 => .ok ⟨⟨0, 0, 1⟩, ⟨0, 1, 0⟩, ⟨-1, 0, 0⟩⟩
  | 0x22 => .ok ⟨⟨0, -1, 0⟩, ⟨0, 0, 1⟩, ⟨-1, 0, 0⟩⟩
  | 0x23 => .ok ⟨⟨0, 0, -1⟩, ⟨0, -1, 0⟩, ⟨-1, 0, 0⟩⟩
  | _ => .error id

/-- Source `Matrix3::to_basic_rotation_id`.  The `?` early returns of the source
become nested option matches; `.ok()?` becomes `Except.toOption`. -/
def Matrix3.toBasicRotationId (m : Matrix3) : Option ℕ :=
  let t := m.transpose
  match t.x.toNormalId with
  | none => none
  | some xId =>
    match t.y.toNormalId with
    | none => none
    | some yId =>
      match t.z.toNormalId with
      | none => none
      | some zId =>
        let basicRotationId := 6 * xId + yId + 1
        match (Matrix3.fromBasicRotationId basicRotationId).toOption with
        | none => none
        | some m2 =>
          match m2.transpose.z.toNormalId with
          | none => none
          | some z2 => if z2 = zId then some basicRotationId else none

/-- The 24 valid basic rotation codes (spec §6). -/
def validRotationIds : List ℕ :=
  [0x02, 0x03, 0x05, 0x06, 0x07, 0x09, 0x0a, 0x0c, 0x0d, 0x0e, 0x10, 0x11,
   0x14, 0x15, 0x17, 0x18, 0x19, 0x1b, 0x1c, 0x1e, 0x1f, 0x20, 0x22, 0x23]

/-- Error payload of an `Except`, to state "fails with an error carrying the
byte" without an implication. -/
def exceptError {ε α : Type} (e : Except ε α) : Option ε :=
  match e with
  | .error a => some a
  | .ok _ => none

/-- Dot product of two `Vector3`s (the `A*B` of the source's comments). -/
def dot3 (a b : Vector3) : ℚ := a.x * b.x + a.y * b.y + a.z * b.z

/-- Negation of a `Vector3`. -/
def Vector3.neg (v : Vector3) : Vector3 := ⟨-v.x, -v.y, -v.z⟩

/-- A row-major `Matrix3` applied to a column vector, as nalgebra's
`na::Matrix3<f32> * na::Vector3<f32>` after the row-preserving conversion
`From<Matrix3> for na::Matrix3<f32>`. -/
def Matrix3.mulVec (m : Matrix3) (v : Vector3) : Vector3 :=
  ⟨dot3 m.x v, dot3 m.y v, dot3 m.z v⟩

/-- Source `Matrix3::orthonormalize` from `basic_types.rs`, translated statement by
statement; `sqrt` is the `f32::sqrt` intrinsic, taken as a parameter.  The
final `Self::new` reproduces the source literally, including its z-row
`Vector3::new(e22, e21, e22)`. -/
def Matrix3.orthonormalize (sqrt : ℚ → ℚ) (m : Matrix3) : Matrix3 :=
  let e00 := m.x.x; let e01 := m.x.y; let e02 := m.x.z
  let e10 := m.y.x; let e11 := m.y.y; let e12 := m.y.z
  let e20 := m.z.x; let e21 := m.z.y; let e22 := m.z.z
  -- compute q0
  let fInvLength := 1 / sqrt (e00 * e00 + e10 * e10 + e20 * e20)
  let e00 := e00 * fInvLength
  let e10 := e10 * fInvLength
  let e20 := e20 * fInvLength
  -- compute q1
  let fDot0 := e00 * e01 + e10 * e11 + e20 * e21
  let e01 := e01 - fDot0 * e00
  let e11 := e11 - fDot0 * e10
  let e21 := e21 - fDot0 * e20
  let fInvLength := 1 / sqrt (e01 * e01 + e11 * e11 + e21 * e21)
  let e01 := e01 * fInvLength
  let e11 := e11 * fInvLength
  let e21 := e21 * fInvLength
  -- compute q2
  let fDot1 := e01 * e02 + e11 * e12 + e21 * e22
  let fDot0 := e00 * e02 + e10 * e12 + e20 * e22
  let e02 := e02 - (fDot0 * e00 + fDot1 * e01)
  let e12 := e12 - (fDot0 * e10 + fDot1 * e11)
  let e22 := e22 - (fDot0 * e20 + fDot1 * e21)
  let fInvLength := 1 / sqrt (e02 * e02 + e12 * e12 + e22 * e22)
  let e02 := e02 * fInvLength
  let e12 := e12 * fInvLength
  let e22 := e22 * fInvLength
  ⟨⟨e00, e01, e02⟩, ⟨e10, e11, e12⟩, ⟨e22, e21, e22⟩⟩

/-- The Gram-Schmidt orthogonalization the spec (§4.2) and the source's own
comment describe: with `M = [m0|m1|m2]` (columns), the output is
`Q = [q0|q1|q2]` where `q0 = m0/|m0|`, `q1` is `m1` made orthogonal to `q0`
then normalized, and `q2` is `m2` made orthogonal to `q0, q1` then
normalized.  Stated from the spec's words for comparison with
`Matrix3.orthonormalize`; `sqrt` is the same square-root parameter. -/
def gramSchmidtColumns (sqrt : ℚ → ℚ) (m : Matrix3) : Matrix3 :=
  let c0 : Vector3 := ⟨m.x.x, m.y.x, m.z.x⟩
  let c1 : Vector3 := ⟨m.x.y, m.y.y, m.z.y⟩
  let c2 : Vector3 := ⟨m.x.z, m.y.z, m.z.z⟩
  let scale : ℚ → Vector3 → Vector3 := fun a v => ⟨a * v.x, a * v.y, a * v.z⟩
  let subV : Vector3 → Vector3 → Vector3 :=
    fun a b => ⟨a.x - b.x, a.y - b.y, a.z - b.z⟩
  let normalize : Vector3 → Vector3 := fun v => scale (1 / sqrt (dot3 v v)) v
  let q0 := normalize c0
  let q1 := normalize (subV c1 (scale (dot3 q0 c1) q0))
  let q2 := normalize (subV (subV c2 (scale (dot3 q0 c2) q0)) (scale (dot3 q1 c2) q1))
  ⟨⟨q0.x, q1.x, q2.x⟩, ⟨q0.y, q1.y, q2.y⟩, ⟨q0.z, q1.z, q2.z⟩⟩

/-- Source `CFrame` from `basic_types.rs`: a position and a row-major orientation. -/
structure CFrame where
  position : Vector3
  orientation : Matrix3
  deriving DecidableEq

/-- Model of nalgebra `Rotation3::from_matrix`, which extracts the rotation
part of a matrix.  It always returns a proper rotation, and it is the
identity exactly on proper rotation matrices (orthonormal with determinant
`+1`); it is modelled as the identity function, so it agrees with the real
`from_matrix` only on proper rotations — on any other matrix (a reflection
such as `diag(1, 1, -1)` included) the real `from_matrix` returns something
else.  Theorems that go through this definition therefore restrict
themselves to `Matrix3.IsProperRotation` orientations. -/
def rotationFromMatrix (m : Matrix3) : Matrix3 := m

/-- Source `impl Mul<Vector3> for CFrame`:
`(na::Matrix3::from(self.orientation).transpose() * rhs.into_alg()).into()`.
Note the source applies only the transposed orientation; `self.position` is
not used. -/
def CFrame.mulVector (c : CFrame) (v : Vector3) : Vector3 :=
  c.orientation.transpose.mulVec v

/-- Source `impl Sub<Vector3> for CFrame`: translate the position, keep the
orientation. -/
def CFrame.subVec (c : CFrame) (rhs : Vector3) : CFrame :=
  ⟨⟨c.position.x - rhs.x, c.position.y - rhs.y, c.position.z - rhs.z⟩,
    c.orientation⟩

/-- Source `CFrame::inverse`: `self.into_alg().inverse().into()`.  The isometry
`(R, t)` inverts to `(R⁻¹, -(R⁻¹ t))` with `R⁻¹ = Rᵀ` for a `Rotation3`;
`R = rotationFromMatrix orientation` and the conversions between `Matrix3`
and nalgebra matrices preserve rows. -/
def CFrame.inverse (c : CFrame) : CFrame :=
  let r := rotationFromMatrix c.orientation
  ⟨(r.transpose.mulVec c.position).neg, r.transpose⟩

/-- Source `CFrame::point_to_world_space`: `*self * v3`. -/
def CFrame.pointToWorldSpace (c : CFrame) (v3 : Vector3) : Vector3 :=
  c.mulVector v3

/-- Source `CFrame::point_to_object_space`: `self.inverse() * v3`. -/
def CFrame.pointToObjectSpace (c : CFrame) (v3 : Vector3) : Vector3 :=
  c.inverse.mulVector v3

/-- Source `CFrame::vector_to_world_space`: `(*self - self.position) * v3`. -/
def CFrame.vectorToWorldSpace (c : CFrame) (v3 : Vector3) : Vector3 :=
  (c.subVec c.position).mulVector v3

/-- Source `CFrame::lerp`.  The `alpha == 0.0` / `alpha == 1.0` guards are the
source's; the quaternion-slerp path taken for any other alpha (nalgebra
`UnitQuaternion::slerp` plus position lerp) is abstracted as the
`slerpPath` parameter, over which the endpoint theorems quantify. -/
def CFrame.lerp (slerpPath : CFrame → CFrame → ℚ → CFrame)
    (c goal : CFrame) (alpha : ℚ) : CFrame :=
  if alpha = 0 then c
  else if alpha = 1 then goal
  else slerpPath c goal alpha

/-- The rows of a `Matrix3` are orthonormal. -/
def Matrix3.OrthonormalRows (m : Matrix3) : Prop :=
  dot3 m.x m.x = 1 ∧ dot3 m.y m.y = 1 ∧ dot3 m.z m.z = 1 ∧
    dot3 m.x m.y = 0 ∧ dot3 m.x m.z = 0 ∧ dot3 m.y m.z = 0

/-- Determinant of a `Matrix3`. -/
def Matrix3.det (m : Matrix3) : ℚ :=
  m.x.x * (m.y.y * m.z.z - m.y.z * m.z.y) -
    m.x.y * (m.y.x * m.z.z - m.y.z * m.z.x) +
    m.x.z * (m.y.x * m.z.y - m.y.y * m.z.x)

/-- A `Matrix3` is a proper rotation: orthonormal rows and determinant `+1`
(the class on which nalgebra's `Rotation3::from_matrix` is the identity, and
the `Matrix3` invariant the spec §3 requires for a rigid `CFrame`).
Orthonormality alone is not enough: a reflection such as `diag(1, 1, -1)`
has orthonormal rows but determinant `-1`, and `from_matrix` maps it to a
different (proper-rotation) matrix. -/
def Matrix3.IsProperRotation (m : Matrix3) : Prop :=
  m.OrthonormalRows ∧ m.det = 1

/-- Source `Color3` from `basic_types.rs`: three `f32` channels, HDR. -/
structure Color3 where
  r : ℚ
  g : ℚ
  b : ℚ
  deriving DecidableEq

/-- Source `Color3uint8`: three bytes. -/
structure Color3uint8 where
  r : ℕ
  g : ℕ
  b : ℕ
  deriving DecidableEq

/-- The Lua `Color3:Lerp` method from `basic_types.rs`:
`let beta = 1.0 - alpha; Self::new(this.r * alpha + color.r * beta, ...)`. -/
def Color3.luaLerp (this color : Color3) (alpha : ℚ) : Color3 :=
  let beta := 1 - alpha
  ⟨this.r * alpha + color.r * beta,
    this.g * alpha + color.g * beta,
    this.b * alpha + color.b * beta⟩

/-- Source `impl From<Color3> for Color3uint8`:
`((value.r.max(0.0).min(1.0)) * 255.0).round() as u8` per channel. -/
def color3ToUint8 (value : Color3) : Color3uint8 :=
  ⟨(rustRound (min (max value.r 0) 1 * 255)).toNat,
    (rustRound (min (max value.g 0) 1 * 255)).toNat,
    (rustRound (min (max value.b 0) 1 * 255)).toNat⟩

/-- Source `impl From<Color3uint8> for Color3`: `value.r as f32 / 255.0` per
channel. -/
def color3FromUint8 (value : Color3uint8) : Color3 :=
  ⟨(value.r : ℚ) / 255, (value.g : ℚ) / 255, (value.b : ℚ) / 255⟩

/-- Source `UDim` from `basic_types.rs`: an `f32` scale and an `i32` offset. -/
structure UDim where
  scale : ℚ
  offset : ℤ
  deriving DecidableEq

/-- Source `UDim::lerp`:
`let beta = 1.0 - alpha;
 let scale = self.scale * alpha + goal.scale * beta;
 let offset = self.offset as f32 * alpha + goal.offset as f32 * beta;
 Self::new(scale, offset.round() as i32)`. -/
def UDim.lerp (self goal : UDim) (alpha : ℚ) : UDim :=
  let beta := 1 - alpha
  let scale := self.scale * alpha + goal.scale * beta
  let offset := (self.offset : ℚ) * alpha + (goal.offset : ℚ) * beta
  ⟨scale, rustRound offset⟩

/-- Source `UDim2`: a pair of `UDim`. -/
structure UDim2 where
  x : UDim
  y : UDim
  deriving DecidableEq

/-- Source `UDim2::lerp`: componentwise `UDim::lerp`. -/
def UDim2.lerp (self goal : UDim2) (alpha : ℚ) : UDim2 :=
  ⟨self.x.lerp goal.x alpha, self.y.lerp goal.y alpha⟩

/-- Source `Faces` from `faces.rs`: a `bitflags` wrapper over a `u8` whose defined
flags are bits 0–5. -/
structure Faces where
  bits : ℕ
  deriving DecidableEq

/-- Flag `Faces::RIGHT` (bit 0). -/
def Faces.RIGHT : Faces := ⟨1⟩

/-- Flag `Faces::TOP` (bit 1). -/
def Faces.TOP : Faces := ⟨2⟩

/-- Flag `Faces::BACK` (bit 2). -/
def Faces.BACK : Faces := ⟨4⟩

/-- Flag `Faces::LEFT` (bit 3). -/
def Faces.LEFT : Faces := ⟨8⟩

/-- Flag `Faces::BOTTOM` (bit 4). -/
def Faces.BOTTOM : Faces := ⟨16⟩

/-- Flag `Faces::FRONT` (bit 5). -/
def Faces.FRONT : Faces := ⟨32⟩

/-- Source `Faces::empty`. -/
def Faces.emptyF : Faces := ⟨0⟩

/-- Source `Faces::all`: all six flags, `0b111111`. -/
def Faces.allF : Faces := ⟨63⟩

/-- The bitflags `contains`: `self.bits & other.bits == other.bits`. -/
def Faces.containsF (self other : Faces) : Bool :=
  self.bits &&& other.bits == other.bits

/-- Source `Faces::from_bits` (bitflags `from_bits`): `None` exactly when a bit
outside the six defined flags — bit 6 or bit 7 of the byte — is set. -/
def Faces.fromBits (bits : ℕ) : Option Faces :=
  if bits &&& 0xC0 = 0 then some ⟨bits⟩ else none

/-- The human-readable serialization of `Faces` (`impl Serialize for Faces`,
human branch): the names of the set flags, in the fixed source order. -/
def Faces.humanSerialize (f : Faces) : List String :=
  (if f.containsF Faces.RIGHT then ["Right"] else []) ++
  (if f.containsF Faces.TOP then ["Top"] else []) ++
  (if f.containsF Faces.BACK then ["Back"] else []) ++
  (if f.containsF Faces.LEFT then ["Left"] else []) ++
  (if f.containsF Faces.BOTTOM then ["Bottom"] else []) ++
  (if f.containsF Faces.FRONT then ["Front"] else [])

/-- Source `HumanVisitor::visit_seq`: fold over the sequence, OR-ing the flag named
by each string into the accumulator, failing on an unrecognized name. -/
def Faces.visitSeq : List String → ℕ → Except String Faces
  | [], flags => .ok ⟨flags⟩
  | faceStr :: rest, flags =>
    match faceStr with
    | "Right" => Faces.visitSeq rest (flags ||| 1)
    | "Top" => Faces.visitSeq rest (flags ||| 2)
    | "Back" => Faces.visitSeq rest (flags ||| 4)
    | "Left" => Faces.visitSeq rest (flags ||| 8)
    | "Bottom" => Faces.visitSeq rest (flags ||| 16)
    | "Front" => Faces.visitSeq rest (flags ||| 32)
    | _ => .error ("invalid face " ++ faceStr)

/-- Human-readable deserialization of `Faces`: `visit_seq` starting from the
empty flag set. -/
def Faces.deserializeHuman (l : List String) : Except String Faces :=
  Faces.visitSeq l 0

/-- The spec's "zero" tolerance from §4.1: a component is zero when its
absolute value is at most the machine epsilon (this matches the code). -/
def specIsZero (v : ℚ) : Prop := ratAbs v ≤ epsQ

/-- The spec's "unit" tolerance from §4.1: a component is a signed unit when
its absolute value is within epsilon of `1.0` — a two-sided condition, for
comparison with the code's one-sided `value.abs() - 1.0 <= EPSILON`. -/
def specIsUnit (v : ℚ) : Prop := ratAbs (ratAbs v - 1) ≤ epsQ

/-- The spec's description of the `Color3 → Color3uint8` conversion: clamp
each channel to `[0, 1]`, then round to the nearest byte (ties as in the
spec's example `0.5 × 255 = 127.5 → 128`).  Stated from the spec's words for
comparison with `color3ToUint8`. -/
def specClampThenRound (value : Color3) : Color3uint8 :=
  ⟨(rustRound (max 0 (min 1 value.r) * 255)).toNat,
    (rustRound (max 0 (min 1 value.g) * 255)).toNat,
    (rustRound (max 0 (min 1 value.b) * 255)).toNat⟩

deriving instance DecidableEq for Except

theorem aue_zero : approxUnitOrZero 0 = some 0 := by
  simp [approxUnitOrZero, ratAbs, epsQ]

theorem aue_one : approxUnitOrZero 1 = some 1 := by
  simp only [approxUnitOrZero, ratAbs, epsQ]; norm_num

theorem aue_neg_one : approxUnitOrZero (-1) = some (-1) := by
  simp only [approxUnitOrZero, ratAbs, epsQ]; norm_num

theorem aue_half : approxUnitOrZero (1 / 2) = some 1 := by
  simp only [approxUnitOrZero, ratAbs, epsQ]; norm_num

@[simp] theorem tni_e1 : Vector3.toNormalId ⟨1, 0, 0⟩ = some 0 := by
  simp [Vector3.toNormalId, aue_zero, aue_one, getNormalId]

@[simp] theorem tni_e2 : Vector3.toNormalId ⟨0, 1, 0⟩ = some 1 := by
  simp [Vector3.toNormalId, aue_zero, aue_one, getNormalId]

@[simp] theorem tni_e3 : Vector3.toNormalId ⟨0, 0, 1⟩ = some 2 := by
  simp [Vector3.toNormalId, aue_zero, aue_one, getNormalId]

@[simp] theorem tni_ne1 : Vector3.toNormalId ⟨-1, 0, 0⟩ = some 3 := by
  simp [Vector3.toNormalId, aue_zero, aue_neg_one, getNormalId]

@[simp] theorem tni_ne2 : Vector3.toNormalId ⟨0, -1, 0⟩ = some 4 := by
  simp [Vector3.toNormalId, aue_zero, aue_neg_one, getNormalId]

@[simp] theorem tni_ne3 : Vector3.toNormalId ⟨0, 0, -1⟩ = some 5 := by
  simp [Vector3.toNormalId, aue_zero, aue_neg_one, getNormalId]

theorem clamp_comm (v : ℚ) : min (max v 0) 1 = max 0 (min 1 v) := by
  rcases le_total v 0 with h | h <;> rcases le_total v 1 with h' | h' <;>
    simp [max_def, min_def] <;> split_ifs <;> linarith

/-- C1: for every rotation code in the 24-entry lookup table,
`to_basic_rotation_id (from_basic_rotation_id id)` returns `Some id`. -/
theorem rotation_id_round_trip (id : ℕ) (hid : id ∈ validRotationIds) :
    (Matrix3.fromBasicRotationId id).toOption.bind Matrix3.toBasicRotationId = some id := by
  fin_cases hid <;>
  · simp only [Matrix3.fromBasicRotationId, Except.toOption, Option.some_bind]
    simp [Matrix3.toBasicRotationId, Matrix3.transpose, Matrix3.identity,
      Matrix3.fromBasicRotationId, Except.toOption]

/-- Witness for C1 at the concrete code `0x03`. -/
theorem rotation_id_round_trip_witness :
    0x03 ∈ validRotationIds ∧
      (Matrix3.fromBasicRotationId 0x03).toOption.bind Matrix3.toBasicRotationId =
        some 0x03 :=
  ⟨by decide, rotation_id_round_trip 0x03 (by decide)⟩

set_option maxRecDepth 8000 in
/-- C2: `from_basic_rotation_id` succeeds exactly on the 24 valid bytes and
fails on every other byte with an error carrying that byte; and decoding a
byte as a compact `Faces` value succeeds exactly when bits 6 and 7 are
clear. -/
theorem rotation_id_decode_errors :
    ∀ id : Fin 256,
      (Matrix3.fromBasicRotationId id.val).isOk = decide (id.val ∈ validRotationIds) ∧
        exceptError (Matrix3.fromBasicRotationId id.val) =
          (if id.val ∈ validRotationIds then none else some id.val) ∧
        (Faces.fromBits id.val).isSome = decide (id.val &&& 0xC0 = 0) := by
  decide

/-- C3: the concrete examples of `to_normal_id` hold, but the claimed
tolerance rule does not: the code's one-sided check `abs - 1.0 ≤ EPSILON`
makes it treat `0.5` as a signed unit, so `Vector3::new(0.5, 0, 0)` maps to
`Some(0)` even though `0.5` is not within epsilon of `1.0` (and is not zero),
contradicting the claim and the function's own documentation. -/
theorem to_normal_id_tolerance :
    Vector3.toNormalId ⟨1, 0, 0⟩ = some 0 ∧
      Vector3.toNormalId ⟨0, -1, 0⟩ = some 4 ∧
      Vector3.toNormalId ⟨1/2, 1/2, 0⟩ = none ∧
      Vector3.toNormalId ⟨1/2, 0, 0⟩ = some 0 ∧
      ¬ specIsUnit (1/2) ∧ ¬ specIsZero (1/2) := by
  refine ⟨?_, ?_, ?_, ?_, ?_, ?_⟩
  · simp [Vector3.toNormalId, aue_zero, aue_one, getNormalId]
  · simp [Vector3.toNormalId, aue_zero, aue_neg_one, getNormalId]
  · simp only [Vector3.toNormalId, aue_zero, aue_half, getNormalId]
  · simp only [Vector3.toNormalId, aue_zero, aue_half, getNormalId]
  · simp only [specIsUnit, ratAbs, epsQ]; norm_num
  · simp only [specIsZero, ratAbs, epsQ]; norm_num

/-- C4: `orthonormalize` does not compute the column-by-column Gram-Schmidt
result: already on the identity matrix (where every square root is of `1`,
so `f32` arithmetic is exact) the code returns z-row `(1, 0, 1)` — its final
row is built as `(e22, e21, e22)` instead of `(e20, e21, e22)` — while
Gram-Schmidt returns the identity, whose z-row is `(0, 0, 1)`. -/
theorem orthonormalize_z_row (sqrt : ℚ → ℚ) (h : sqrt 1 = 1) :
    Matrix3.orthonormalize sqrt Matrix3.identity = ⟨⟨1, 0, 0⟩, ⟨0, 1, 0⟩, ⟨1, 0, 1⟩⟩ ∧
      gramSchmidtColumns sqrt Matrix3.identity = Matrix3.identity ∧
      Matrix3.mk ⟨1, 0, 0⟩ ⟨0, 1, 0⟩ ⟨1, 0, 1⟩ ≠ Matrix3.identity := by
  refine ⟨?_, ?_, ?_⟩
  · simp only [Matrix3.orthonormalize, Matrix3.identity]
    norm_num [h]
  · simp only [gramSchmidtColumns, Matrix3.identity, dot3]
    norm_num [h]
  · simp [Matrix3.identity, Matrix3.mk.injEq, Vector3.mk.injEq]

/-- Witness for C4, instantiating the square root with the constant-one
function (which agrees with `f32::sqrt` on the only argument used, `1`). -/
theorem orthonormalize_z_row_witness :
    Matrix3.orthonormalize (fun _ => 1) Matrix3.identity =
        ⟨⟨1, 0, 0⟩, ⟨0, 1, 0⟩, ⟨1, 0, 1⟩⟩ ∧
      gramSchmidtColumns (fun _ => 1) Matrix3.identity = Matrix3.identity ∧
      Matrix3.mk ⟨1, 0, 0⟩ ⟨0, 1, 0⟩ ⟨1, 0, 1⟩ ≠ Matrix3.identity :=
  orthonormalize_z_row (fun _ => 1) rfl

/-- C5: the endpoint-exactness of `lerp` holds for `CFrame` (whose `alpha ==
0.0` / `alpha == 1.0` guards return the endpoints unchanged, whatever the
slerp path computes), but fails for `Color3` and `UDim` (hence `UDim2`):
their lerp computes `self * alpha + goal * (1 - alpha)`, so at `alpha = 0`
it returns the goal `B`, not `A` (all arithmetic here is exact in `f32`). -/
theorem lerp_endpoints :
    (∀ sp (a b : CFrame), CFrame.lerp sp a b 0 = a ∧ CFrame.lerp sp a b 1 = b) ∧
      Color3.luaLerp ⟨1, 1, 1⟩ ⟨0, 0, 0⟩ 0 = ⟨0, 0, 0⟩ ∧
      Color3.mk 0 0 0 ≠ ⟨1, 1, 1⟩ ∧
      UDim.lerp ⟨1, 10⟩ ⟨0, 0⟩ 0 = ⟨0, 0⟩ ∧
      UDim.mk 0 0 ≠ ⟨1, 10⟩ := by
  refine ⟨fun sp a b => ⟨by simp [CFrame.lerp], by simp [CFrame.lerp]⟩, ?_, ?_, ?_, ?_⟩
  · norm_num [Color3.luaLerp]
  · simp [Color3.mk.injEq]
  · norm_num [UDim.lerp, rustRound]
  · simp [UDim.mk.injEq]

/-- C6: `point_to_world_space` does not apply the translation: on
`T = (position (1,2,3), identity orientation)` and `v = (4,5,6)` it returns
`(4,5,6)` instead of `R·v + p = (5,7,9)`, and in fact it coincides with
`vector_to_world_space` on every input, because `impl Mul<Vector3> for
CFrame` multiplies by the transposed orientation only and never adds
`self.position`. -/
theorem point_to_world_ignores_translation :
    CFrame.pointToWorldSpace ⟨⟨1, 2, 3⟩, Matrix3.identity⟩ ⟨4, 5, 6⟩ = ⟨4, 5, 6⟩ ∧
      Vector3.mk 4 5 6 ≠ ⟨5, 7, 9⟩ ∧
      ∀ (c : CFrame) (v : Vector3), c.pointToWorldSpace v = c.vectorToWorldSpace v := by
  refine ⟨?_, ?_, fun c v => rfl⟩
  · norm_num [CFrame.pointToWorldSpace, CFrame.mulVector, Matrix3.identity,
      Matrix3.transpose, Matrix3.mulVec, dot3]
  · simp [Vector3.mk.injEq]

/-- C7 counterexample: for the (non-rigid) transform with zero orientation
and position `(1,0,0)`, the world/object round trip of `(1,0,0)` returns
`(0,0,0)`, which is not within any tolerance of `(1,0,0)`; so the claim is
false for arbitrary transforms. -/
theorem space_round_trip_fails_for_nonrigid :
    CFrame.pointToObjectSpace ⟨⟨1, 0, 0⟩, ⟨⟨0, 0, 0⟩, ⟨0, 0, 0⟩, ⟨0, 0, 0⟩⟩⟩
        (CFrame.pointToWorldSpace ⟨⟨1, 0, 0⟩, ⟨⟨0, 0, 0⟩, ⟨0, 0, 0⟩, ⟨0, 0, 0⟩⟩⟩ ⟨1, 0, 0⟩) =
        ⟨0, 0, 0⟩ ∧
      Vector3.mk 0 0 0 ≠ ⟨1, 0, 0⟩ := by
  constructor
  · norm_num [CFrame.pointToObjectSpace, CFrame.pointToWorldSpace, CFrame.inverse,
      CFrame.mulVector, rotationFromMatrix, Matrix3.transpose, Matrix3.mulVec,
      Vector3.neg, dot3]
  · simp [Vector3.mk.injEq]

/-- C7 amended: for every transform whose orientation is a proper rotation
(orthonormal rows and determinant `+1` — the rigid-transform invariant of
spec §3, and the class on which the `rotationFromMatrix` model of nalgebra's
`from_matrix` is faithful) and every vector `v`,
`point_to_object_space (point_to_world_space v) = v` and
`inverse().inverse()` is the original transform, exactly in exact
arithmetic. -/
theorem space_round_trip_rigid (T : CFrame) (h : T.orientation.IsProperRotation)
    (v : Vector3) :
    T.pointToObjectSpace (T.pointToWorldSpace v) = v ∧ T.inverse.inverse = T := by
  obtain ⟨⟨px, py, pz⟩, ⟨⟨xx, xy, xz⟩, ⟨yx, yy, yz⟩, ⟨zx, zy, zz⟩⟩⟩ := T
  obtain ⟨vx, vy, vz⟩ := v
  obtain ⟨⟨h1, h2, h3, h4, h5, h6⟩, hdet⟩ := h
  simp only [Matrix3.OrthonormalRows, dot3] at h1 h2 h3 h4 h5 h6
  constructor
  · simp only [CFrame.pointToObjectSpace, CFrame.pointToWorldSpace, CFrame.inverse,
      CFrame.mulVector, rotationFromMatrix, Matrix3.transpose, Matrix3.mulVec,
      Vector3.neg, dot3, Vector3.mk.injEq]
    refine ⟨?_, ?_, ?_⟩
    · linear_combination vx * h1 + vy * h4 + vz * h5
    · linear_combination vx * h4 + vy * h2 + vz * h6
    · linear_combination vx * h5 + vy * h6 + vz * h3
  · simp only [CFrame.inverse, rotationFromMatrix, Matrix3.transpose, Matrix3.mulVec,
      Vector3.neg, dot3, CFrame.mk.injEq, Matrix3.mk.injEq, Vector3.mk.injEq]
    refine ⟨⟨?_, ?_, ?_⟩, trivial⟩
    · linear_combination px * h1 + py * h4 + pz * h5
    · linear_combination px * h4 + py * h2 + pz * h6
    · linear_combination px * h5 + py * h6 + pz * h3

/-- Witness for the amended C7 at a concrete rigid transform and vector. -/
theorem space_round_trip_rigid_witness :
    CFrame.pointToObjectSpace ⟨⟨7, 8, 9⟩, Matrix3.identity⟩
        (CFrame.pointToWorldSpace ⟨⟨7, 8, 9⟩, Matrix3.identity⟩ ⟨1, 2, 3⟩) = ⟨1, 2, 3⟩ ∧
      (CFrame.mk ⟨7, 8, 9⟩ Matrix3.identity).inverse.inverse =
        CFrame.mk ⟨7, 8, 9⟩ Matrix3.identity :=
  space_round_trip_rigid ⟨⟨7, 8, 9⟩, Matrix3.identity⟩
    (by
      refine ⟨⟨?_, ?_, ?_, ?_, ?_, ?_⟩, ?_⟩ <;>
        norm_num [Matrix3.identity, Matrix3.det, dot3]) ⟨1, 2, 3⟩

set_option maxRecDepth 8000 in
/-- C8: for every `Faces` mask with bits 6–7 clear, decoding the human-form
(list of names) encoding reproduces the mask, and the compact byte decodes
back to the mask; the human form of `Faces::empty()` is the empty list and
that of `Faces::all()` is the six names in canonical order. -/
theorem faces_round_trip :
    (∀ m : Fin 64,
        Faces.deserializeHuman (Faces.humanSerialize ⟨m.val⟩) = .ok ⟨m.val⟩ ∧
          Faces.fromBits (Faces.mk m.val).bits = some ⟨m.val⟩) ∧
      Faces.humanSerialize Faces.emptyF = [] ∧
      Faces.humanSerialize Faces.allF =
        ["Right", "Top", "Back", "Left", "Bottom", "Front"] := by
  decide

/-- C9: `Color3 → Color3uint8` clamps each channel to `[0,1]` and rounds to
the nearest byte (it is total: out-of-range values are clamped, never
rejected), with `Color3::new(-1.0, 0.5, 2.0)` mapping to `(0, 128, 255)`;
and `Color3uint8 → Color3` divides each byte by 255. -/
theorem color3_uint8_conversion :
    color3ToUint8 ⟨-1, 1/2, 2⟩ = ⟨0, 128, 255⟩ ∧
      (∀ c : Color3uint8,
        color3FromUint8 c = ⟨(c.r : ℚ) / 255, (c.g : ℚ) / 255, (c.b : ℚ) / 255⟩) ∧
      ∀ c : Color3, color3ToUint8 c = specClampThenRound c := by
  refine ⟨?_, fun c => rfl, fun c => ?_⟩
  · norm_num [color3ToUint8, rustRound, Color3uint8.mk.injEq]
    exact ⟨rfl, rfl⟩
  · simp only [color3ToUint8, specClampThenRound, clamp_comm]

/-- C10: whenever `to_basic_rotation_id` returns `Some id` — for any matrix
whatsoever — `from_basic_rotation_id id` succeeds, because the encoder only
accepts an id after reconstructing a matrix from it via the decoder. -/
theorem to_basic_rotation_id_decodable (m : Matrix3) (id : ℕ)
    (h : m.toBasicRotationId = some id) :
    (Matrix3.fromBasicRotationId id).isOk = true := by
  rw [Matrix3.toBasicRotationId] at h
  simp only [] at h
  cases hx : m.transpose.x.toNormalId with
  | none => simp only [hx] at h; simp at h
  | some xId =>
  simp only [hx] at h
  cases hy : m.transpose.y.toNormalId with
  | none => simp only [hy] at h; simp at h
  | some yId =>
  simp only [hy] at h
  cases hz : m.transpose.z.toNormalId with
  | none => simp only [hz] at h; simp at h
  | some zId =>
  simp only [hz] at h
  cases hfb : Matrix3.fromBasicRotationId (6 * xId + yId + 1) with
  | error e => simp only [hfb, Except.toOption] at h; simp at h
  | ok m2 =>
  simp only [hfb, Except.toOption] at h
  cases hz2 : m2.transpose.z.toNormalId with
  | none => simp only [hz2] at h; simp at h
  | some z2 =>
  simp only [hz2] at h
  by_cases hzz : z2 = zId
  · rw [if_pos hzz] at h
    obtain rfl : 6 * xId + yId + 1 = id := Option.some.inj h
    rw [hfb]
    rfl
  · rw [if_neg hzz] at h; simp at h

/-- Witness for C10 at the identity matrix, which encodes to `0x02`. -/
theorem to_basic_rotation_id_decodable_witness :
    (Matrix3.fromBasicRotationId 0x02).isOk = true :=
  to_basic_rotation_id_decodable Matrix3.identity 0x02 (by
    simp only [Matrix3.toBasicRotationId, Matrix3.fromBasicRotationId, Except.toOption]
    simp [Matrix3.transpose, Matrix3.identity])

end Rbx
